import Mathlib

/-!
Formal model of the JDK Acquisition and Activation Engine implemented in
src/jdk_manager.rs of the jpre JDK version manager.

The Rust source is embedded shallowly: filesystem and network effects are
made explicit as state records and outcome parameters, machine integers
become Nat with explicit bounds (the u8 parse checks a 256 bound), and
fallible operations return Except values whose error type mirrors anyhow
error chains (a root cause wrapped in context layers).
-/

namespace Jpre

/-- Model of an anyhow error value: a root cause, possibly wrapped in
context layers added by .context calls. The notATTY constructor stands for
the specific anyhow value created at the interactive-terminal check in
get_symlink_location. -/
inductive Err where
  | notATTY : Err
  | msg : String → Err
  | ctx : String → Err → Err
deriving DecidableEq, Repr

/-- Root cause of an anyhow error chain: peel all context layers. -/
def rootCause : Err → Err
  | .ctx _ e => rootCause e
  | .notATTY => .notATTY
  | .msg s => .msg s

/-- Model of the Rust u8 FromStr parse used on directory names and link
targets: an optional leading plus sign, then one or more ASCII digits,
rejected when the value exceeds the u8 range. Leading zeros are accepted,
exactly as the Rust integer parsing accepts them. -/
def parseU8 (s : String) : Option Nat :=
  let cs := s.data
  let ds := match cs with
    | '+' :: rest => rest
    | _ => cs
  if ds.isEmpty then none
  else if ds.all Char.isDigit then
    let v := ds.foldl (fun acc c => acc * 10 + (c.toNat - 48)) 0
    if v < 256 then some v else none
  else none

/-- State of the release metadata file inside one JDK install directory:
absent, unreadable (read_to_string fails), unparseable (the toml parse
fails), or parsed into a key/value map. The toml crate rejects duplicate
keys, so a parsed map has distinct keys. -/
inductive ReleaseState where
  | missing : ReleaseState
  | unreadable : ReleaseState
  | parseFail : ReleaseState
  | parsed : List (String × String) → ReleaseState
deriving DecidableEq, Repr

/-- State of one directory BASE_PATH/name under the jdks cache root:
whether the directory exists, whether the FINISHED_MARKER file
(.jdk_marker) is present at its root, and the state of its release file. -/
structure JdkState where
  present : Bool
  marker : Bool
  release : ReleaseState
deriving DecidableEq, Repr

/-- Lookup of the JAVA_VERSION key in the parsed release map, modelling
HashMap get on the toml deserialization (keys are distinct). -/
def releaseLookup (rm : List (String × String)) : Option String :=
  (rm.find? (fun kv => kv.1 == "JAVA_VERSION")).map Prod.snd

/-- Core of get_jdk_version on the state of one install directory: the
marker must exist, then the release file must exist, be readable and
parse, then the JAVA_VERSION key is looked up. Every failure collapses to
none, never to an error. -/
def jdkVersionOf (st : JdkState) : Option String :=
  if st.marker then
    match st.release with
    | .missing => none
    | .unreadable => none
    | .parseFail => none
    | .parsed rm => releaseLookup rm
  else none

/-- Outcome of read_dir on the cache root: the directory does not exist
(io NotFound), some other io error, or a listing whose individual entries
may themselves fail to be read. -/
inductive ReadDir where
  | notFound : ReadDir
  | err : Err → ReadDir
  | ok : List (Except Err String) → ReadDir

/-- State of the jdks cache root: the read_dir outcome for BASE_PATH, and
the per-name state of each directory under it. -/
structure CacheFS where
  baseDir : ReadDir
  jdks : String → JdkState

/-- Model of get_jdk_version(major): reads the state of the directory
named by the decimal rendering of the major. In the source the argument
is a u8; callers obtain it from parseU8, so it is below 256. -/
def get_jdk_version (fs : CacheFS) (major : Nat) : Option String :=
  jdkVersionOf (fs.jdks (toString major))

/-- Model of Iterator collect over Result items: the first error wins,
otherwise the list of ok values in order. -/
def collectExcept {α : Type} : List (Except Err α) → Except Err (List α)
  | [] => .ok []
  | .error e :: _ => .error e
  | .ok a :: rest =>
    match collectExcept rest with
    | .error e => .error e
    | .ok l => .ok (a :: l)

/-- Model of get_all_jdk_majors: a NotFound error on read_dir yields an
empty list, any other read_dir error is returned; otherwise each entry
name is parsed as u8, names that fail to parse are dropped, and entry
read errors are kept (with context) so that collect surfaces the first
one. No marker check happens here. -/
def get_all_jdk_majors (fs : CacheFS) : Except Err (List Nat) :=
  match fs.baseDir with
  | .notFound => .ok []
  | .err e => .error e
  | .ok entries =>
    collectExcept (entries.filterMap fun r =>
      match r with
      | .ok name => (parseU8 name).map Except.ok
      | .error e => some (.error (Err.ctx "Failed to read directory entry" e)))

/-- Stable insertion of a pair into a list sorted ascending by the Nat
key, placing the new pair after existing pairs with the same key. -/
def insertByKey (x : Nat × String) : List (Nat × String) → List (Nat × String)
  | [] => [x]
  | y :: ys => if y.1 ≤ x.1 then y :: insertByKey x ys else x :: y :: ys

/-- Stable insertion sort ascending by the Nat key, modelling the stable
sort_by_key call. -/
def insSortByKey : List (Nat × String) → List (Nat × String)
  | [] => []
  | x :: xs => insertByKey x (insSortByKey xs)

/-- Model of map_available_jdk_versions: keep the majors that report a
version, pair each with its version, and sort ascending by major. -/
def map_available_jdk_versions (fs : CacheFS) (majors : List Nat) : List (Nat × String) :=
  insSortByKey (majors.filterMap fun m => (get_jdk_version fs m).map fun v => (m, v))

/-- Cache root path BASE_PATH = cache_dir/jdks, as abstract components.
The project cache directory comes from external configuration; a fixed
component stands for it. -/
def basePath : List String := ["cache_dir", "jdks"]

/-- Install path of one major: BASE_PATH joined with the decimal major. -/
def jdkPath (major : Nat) : List String := basePath ++ [toString major]

/-- Path of the private staging directory TempDir::new_in(BASE_PATH,
"jdk-download"), as abstract components. -/
def tmpStagingPath : List String := basePath ++ ["jdk-download"]

/-- Outcome of streaming one archive body through gunzip and tar unpack
into the staging directory: whether the stream was well formed, the
top-level entry names left in the staging directory afterwards (a partial
set when the stream failed midway), and the release-file state of the
tree that ends up at the install root. -/
structure ExtractOutcome where
  ok : Bool
  entries : List String
  release : ReleaseState
deriving DecidableEq, Repr

/-- The fetch response of the metadata-fetch collaborator: success flag,
the Content-Disposition filename (absent header, a parse failure, or a
filename), the optional Content-Length, and the effect of extracting its
body stream. -/
structure NetResponse where
  success : Bool
  contentDisposition : Option (Except Err String)
  contentLength : Option Nat
  extract : ExtractOutcome

/-- Success or failure of each filesystem operation performed by the
install pipeline, as oracle flags: removal of a stale install dir,
create_dir_all of the install dir, creation of the staging TempDir,
read_dir of the staging dir, the rename into the install path, creation
of the completion marker, and the final staging cleanup. -/
structure FsOps where
  removeOk : Bool
  createOk : Bool
  tempOk : Bool
  readTempOk : Bool
  renameOk : Bool
  markerOk : Bool
  cleanupOk : Bool

/-- Observable filesystem events of finish_extract that matter for the
crash-safety ordering: the rename into the install path and the creation
of the completion marker. -/
inductive Event where
  | rename : Event
  | marker : Event
deriving DecidableEq, Repr

/-- Result of finish_extract: the returned Result, the state of the
install directory afterwards, the events that happened in order, and
whether the staging directory still exists (it does unless the staging
directory itself was renamed away). -/
structure FinishResult where
  result : Except Err Unit
  dir : JdkState
  events : List Event
  stagingRemains : Bool
  renamedFrom : Option (List String)
deriving Repr

/-- Model of unarchive_tar_gz. In the source the gunzip and tar unpack
run on a spawned worker thread whose JoinHandle is discarded; stream
errors there are unwrap panics on that thread and never reach the caller,
and the return type of the function carries no error. The model therefore
exposes only the entries left in the staging directory, with no error
channel. -/
def unarchive_tar_gz (x : ExtractOutcome) : List String := x.entries

/-- Whether a name begins with a dot, at the character level. -/
def startsWithDot (n : String) : Bool :=
  match n.data with
  | '.' :: _ => true
  | _ => false

/-- Whether the string s ends with the string pat, at the character
level. -/
def strEndsWith (s pat : String) : Bool := List.isSuffixOf pat.data s.data

/-- Top-level staging entries that survive the hidden-name filter: names
beginning with a dot are dropped before the single-entry count. In the
source the filter runs on the file_name of each full path. -/
def visibleEntries (names : List String) : List String :=
  names.filter (fun n => !(startsWithDot n))

/-- Source-directory selection of finish_extract: with exactly one
visible staging entry that entry is chosen (on macOS its Contents/Home
subpath), otherwise the staging directory itself. -/
def fromDirSelect (tmp : List String) (names : List String) (mac : Bool) : List String :=
  match visibleEntries names with
  | [e] => if mac then tmp ++ [e, "Contents", "Home"] else tmp ++ [e]
  | _ => tmp

/-- Model of finish_extract: reject filenames without the .tar.gz suffix,
run the extraction (whose stream failures cannot surface here), read the
staging directory, choose the source directory, rename it into the
install path, and create the completion marker last. dir0 is the state of
the install directory at entry (just created empty by update_jdk). -/
def finish_extract (url : String) (x : ExtractOutcome) (ops : FsOps)
    (mac : Bool) (dir0 : JdkState) (tmp : List String) : FinishResult :=
  if strEndsWith url ".tar.gz" then
    let names := unarchive_tar_gz x
    if ops.readTempOk then
      let fd := fromDirSelect tmp names mac
      if ops.renameOk then
        let dir1 : JdkState := ⟨true, false, x.release⟩
        let remains := fd != tmp
        if ops.markerOk then
          ⟨.ok (), ⟨true, true, x.release⟩, [.rename, .marker], remains, some fd⟩
        else
          ⟨.error (.ctx "Unable to create marker" (.msg "io")), dir1, [.rename],
            remains, some fd⟩
      else
        ⟨.error (.ctx "Unable to move to JDK folder" (.msg "io")), dir0, [], true, none⟩
    else
      ⟨.error (.ctx "Failed to read temp dir" (.msg "io")), dir0, [], true, none⟩
  else
    ⟨.error (.msg ("Dont know how to handle " ++ url)), dir0, [], true, none⟩

/-- Result of update_jdk: the returned Result and the state of the
install directory afterwards. -/
structure UpdateResult where
  result : Except Err Unit
  dir : JdkState
deriving Repr

/-- Final staging cleanup of update_jdk: pass a finish_extract error
through, and when the staging directory still exists close it -- a
cleanup failure there surfaces as an error even though the marker already
exists. -/
def finalize (fr : FinishResult) (ops : FsOps) : UpdateResult :=
  match fr.result with
  | .error e => ⟨.error e, fr.dir⟩
  | .ok () =>
    if fr.stagingRemains && !ops.cleanupOk then
      ⟨.error (.ctx "Failed to cleanup temp dir" (.msg "io")), fr.dir⟩
    else ⟨.ok (), fr.dir⟩

/-- Body of update_jdk after a fetch response arrived: fail on a
non-success response or a missing or unparseable Content-Disposition
filename, remove a pre-existing install directory wholesale, create the
install directory and the staging directory, run finish_extract, and
finish with the staging cleanup. -/
def update_jdk_fetched (resp : NetResponse) (ops : FsOps) (mac : Bool)
    (dir0 : JdkState) : UpdateResult :=
  if resp.success then
    match resp.contentDisposition with
    | none => ⟨.error (.msg "no content disposition"), dir0⟩
    | some (.error e) => ⟨.error e, dir0⟩
    | some (.ok url) =>
      if dir0.present && !ops.removeOk then
        ⟨.error (.ctx "Unable to clean JDK folder" (.msg "io")), dir0⟩
      else if ops.createOk then
        if ops.tempOk then
          finalize
            (finish_extract url resp.extract ops mac ⟨true, false, .missing⟩
              tmpStagingPath) ops
        else
          ⟨.error (.ctx "Failed to create temporary directory" (.msg "io")),
            ⟨true, false, .missing⟩⟩
      else
        ⟨.error (.ctx "Unable to create directories to JDK folder" (.msg "io")),
          if dir0.present then ⟨false, false, .missing⟩ else dir0⟩
  else ⟨.error (.msg "Failed to get JDK binary"), dir0⟩

/-- Model of update_jdk: the fetch error short-circuits, otherwise the
install body runs on the response. -/
def update_jdk (net : Except Err NetResponse) (ops : FsOps) (mac : Bool)
    (dir0 : JdkState) : UpdateResult :=
  match net with
  | .error e => ⟨.error e, dir0⟩
  | .ok resp => update_jdk_fetched resp ops mac dir0

/-- Model of get_jdk_path(major): when the completion marker exists the
install path is returned at once, without touching the network oracle;
otherwise update_jdk runs and on success the same path is returned. The
second component is the state of the install directory afterwards. -/
def get_jdk_path (net : Except Err NetResponse) (ops : FsOps) (mac : Bool)
    (major : Nat) (st : JdkState) : Except Err (List String) × JdkState :=
  if st.marker then (.ok (jdkPath major), st)
  else
    let u := update_jdk net ops mac st
    match u.result with
    | .error e => (.error e, u.dir)
    | .ok () => (.ok (jdkPath major), u.dir)

/-- The controlling terminal of the error output stream of the process:
whether that stream is attended (an interactive terminal), and the
outcome of ttyname plus the UTF-8 conversion. -/
structure Tty where
  attended : Bool
  ttyName : Except Err String

/-- The by-tty session link directory under the system temp dir. -/
def byTtyPath : List String := ["tmp", "jpre-by-tty"]

/-- Character-level model of the replace of slashes by dashes. -/
def replaceSlash (c : Char) : Char := if c = '/' then '-' else c

/-- Sanitization of a terminal device path into a flat link filename:
every slash becomes a dash. -/
def sanitize (s : String) : String := ⟨s.data.map replaceSlash⟩

/-- Model of get_symlink_location: fail with the Not a TTY error when the
error stream is not attended to a terminal, then resolve the terminal
device name, create the by-tty directory, and return the link path named
by the sanitized device path. -/
def get_symlink_location (t : Tty) (mkdirOk : Bool) : Except Err (List String) :=
  if t.attended then
    match t.ttyName with
    | .error e => .error e
    | .ok tty =>
      if mkdirOk then .ok (byTtyPath ++ [sanitize tty])
      else .error (.ctx "Failed to create by-tty directory" (.msg "io"))
  else .error .notATTY

/-- Model of get_current_jdk: resolve the session link location, read the
link target (none models a missing or unreadable link), take the final
path component, parse it as u8, and look its version up; every failure of
that chain collapses to the single Not linked error. -/
def get_current_jdk (t : Tty) (mkdirOk : Bool) (link : Option (List String))
    (fs : CacheFS) : Except Err String :=
  match get_symlink_location t mkdirOk with
  | .error e => .error e
  | .ok _ =>
    match link with
    | none => .error (.ctx "No current JDK" (.msg "io"))
    | some target =>
      match target.getLast? >>= fun name =>
          parseU8 name >>= fun m => get_jdk_version fs m with
      | some v => .ok v
      | none => .error (.msg "Not linked to an actual JDK")

/-- Model of symlink_jdk_path(major): resolve the JDK path first (which
may run the whole install pipeline), then the session link location, then
remove a pre-existing link and create the new one. linkThere says whether
a link already exists at the location; rmOk and slOk are the oracle flags
of the removal and symlink calls. -/
def symlink_jdk_path (net : Except Err NetResponse) (ops : FsOps) (mac : Bool)
    (major : Nat) (st : JdkState) (t : Tty) (mkdirOk : Bool)
    (linkThere rmOk slOk : Bool) : Except Err Unit :=
  match (get_jdk_path net ops mac major st).1 with
  | .error e => .error (.ctx "Failed to get JDK path" e)
  | .ok _ =>
    match get_symlink_location t mkdirOk with
    | .error e => .error (.ctx "Failed to get symlink location" e)
    | .ok _ =>
      if linkThere && !rmOk then
        .error (.ctx "Failed to remove old symlink" (.msg "io"))
      else if slOk then .ok ()
      else .error (.ctx "Failed to make new symlink" (.msg "io"))

/-- A fully installed JDK 17 directory state: marker present, release
file parsed with a JAVA_VERSION among other keys. -/
def stInstalled : JdkState :=
  ⟨true, true, .parsed
    [("IMPLEMENTOR", "Eclipse Adoptium"), ("JAVA_VERSION", "17.0.2"),
     ("JVM_VARIANT", "Hotspot")]⟩

/-- A directory with contents (even a parseable release file) but no
completion marker. -/
def stNoMarker : JdkState := ⟨true, false, .parsed [("JAVA_VERSION", "17.0.2")]⟩

/-- A directory that does not exist. -/
def absentJdk : JdkState := ⟨false, false, .missing⟩

/-- Cache state for the release-inspector cases: 10 lacks the marker, 11
has no release file, 12 an unreadable one, 13 an unparseable one, 14 a
parsed release map without any JAVA_VERSION key, 17 is fully
installed. -/
def fsC5 : CacheFS :=
  ⟨.notFound, fun n =>
    if n == "10" then ⟨true, false, .parsed [("JAVA_VERSION", "10.0.1")]⟩
    else if n == "11" then ⟨true, true, .missing⟩
    else if n == "12" then ⟨true, true, .unreadable⟩
    else if n == "13" then ⟨true, true, .parseFail⟩
    else if n == "14" then
      ⟨true, true, .parsed [("IMPLEMENTOR", "Eclipse Adoptium"), ("OS_NAME", "Linux")]⟩
    else if n == "17" then stInstalled
    else absentJdk⟩

/-- A valid installed state under the out-of-range name 256. -/
def st256 : JdkState := ⟨true, true, .parsed [("JAVA_VERSION", "20.0.1")]⟩

/-- Cache state whose root lists a valid major 17 and an entry named 256
that is itself a fully valid install directory. -/
def fsC10 : CacheFS :=
  ⟨.ok [.ok "17", .ok "256"], fun n =>
    if n == "256" then st256
    else if n == "17" then stInstalled
    else absentJdk⟩

/-- An attended terminal on a concrete device. -/
def ttyOk : Tty := ⟨true, .ok "/dev/pts/3"⟩

/-- Cache state whose root lists a single directory 17 that has contents
but no completion marker. -/
def fsC1 : CacheFS :=
  ⟨.ok [.ok "17"], fun n => if n == "17" then stNoMarker else absentJdk⟩

/-- A fully installed JDK 21 directory state. -/
def jdk21 : JdkState := ⟨true, true, .parsed [("JAVA_VERSION", "21.0.3")]⟩

/-- Cache state with a markerless 17 and a fully installed 21. -/
def fsC1w : CacheFS :=
  ⟨.notFound, fun n =>
    if n == "17" then stNoMarker
    else if n == "21" then jdk21
    else absentJdk⟩

/-- Cache state whose root lists the two distinct names 17 and 017, both
parsing to the same u8 value. -/
def fsC8 : CacheFS :=
  ⟨.ok [.ok "17", .ok "017"], fun _ => stInstalled⟩

/-- A failing network collaborator. -/
def netDown : Except Err NetResponse := .error (.msg "network down")

/-- Filesystem oracle on which every operation fails. -/
def opsNone : FsOps := ⟨false, false, false, false, false, false, false⟩

/-- Filesystem oracle on which every operation succeeds. -/
def opsAll : FsOps := ⟨true, true, true, true, true, true, true⟩

/-- A concrete tar.gz archive filename. -/
def urlTarGz : String := "OpenJDK17U-jdk_x64_linux_hotspot_17.0.2_8.tar.gz"

/-- A well-formed archive stream whose extraction leaves one container
directory holding a release file. -/
def extractGood : ExtractOutcome :=
  ⟨true, ["jdk-17.0.2+8"], .parsed [("JAVA_VERSION", "17.0.2")]⟩

/-- A corrupt archive stream: the tar entry iteration fails partway on
the worker thread, leaving a partially extracted container directory. -/
def extractFail : ExtractOutcome :=
  ⟨false, ["jdk-17.0.2+8"], .parsed [("JAVA_VERSION", "17.0.2")]⟩

/-- A successful fetch response serving the well-formed stream. -/
def respGood : NetResponse := ⟨true, some (.ok urlTarGz), some 190000000, extractGood⟩

/-- A successful fetch response serving the corrupt stream. -/
def respCorrupt : NetResponse :=
  ⟨true, some (.ok urlTarGz), some 190000000, extractFail⟩

/-- The install directory state produced by a successful install of the
extractGood tree. -/
def dirAfterInstall : JdkState := ⟨true, true, .parsed [("JAVA_VERSION", "17.0.2")]⟩

/-- A non-attended error output stream. -/
def ttyNone : Tty := ⟨false, .ok "/dev/pts/9"⟩

end Jpre

namespace Jpre

theorem collect_mapOk (names : List String) :
    collectExcept (names.filterMap fun name => (parseU8 name).map Except.ok)
      = .ok (names.filterMap parseU8) := by
  induction names with
  | nil => rfl
  | cons h t ih =>
    cases hp : parseU8 h <;>
      simp [List.filterMap_cons, hp, collectExcept, ih]

theorem gajm_allOk (names : List String) (jd : String → JdkState) :
    get_all_jdk_majors ⟨.ok (names.map Except.ok), jd⟩
      = .ok (names.filterMap parseU8) := by
  have h : (names.map Except.ok).filterMap
      (fun r : Except Err String =>
        match r with
        | .ok name => (parseU8 name).map Except.ok
        | .error e => some (.error (Err.ctx "Failed to read directory entry" e)))
      = names.filterMap fun name => (parseU8 name).map Except.ok := by
    rw [List.filterMap_map]
    rfl
  simp only [get_all_jdk_majors, h, collect_mapOk]

/-- Claim C5: get_jdk_version returns none, never a hard failure, when
the completion marker is missing, the release metadata file is missing,
the file fails to read or parse, or the parsed release map has no
JAVA_VERSION key (its lookup yields none); and with the marker present
and a parsed release map whose JAVA_VERSION lookup yields a version, that
version is returned. -/
theorem C5_release_inspector (fs : CacheFS) (m : Nat) :
    ((fs.jdks (toString m)).marker = false → get_jdk_version fs m = none)
    ∧ ((fs.jdks (toString m)).release = .missing → get_jdk_version fs m = none)
    ∧ ((fs.jdks (toString m)).release = .unreadable → get_jdk_version fs m = none)
    ∧ ((fs.jdks (toString m)).release = .parseFail → get_jdk_version fs m = none)
    ∧ (∀ rm, (fs.jdks (toString m)).marker = true →
        (fs.jdks (toString m)).release = .parsed rm → releaseLookup rm = none →
        get_jdk_version fs m = none)
    ∧ (∀ rm v, (fs.jdks (toString m)).marker = true →
        (fs.jdks (toString m)).release = .parsed rm → releaseLookup rm = some v →
        get_jdk_version fs m = some v) := by
  refine ⟨?_, ?_, ?_, ?_, ?_, ?_⟩
  · intro h
    simp [get_jdk_version, jdkVersionOf, h]
  · intro h
    cases hm : (fs.jdks (toString m)).marker <;>
      simp [get_jdk_version, jdkVersionOf, h, hm]
  · intro h
    cases hm : (fs.jdks (toString m)).marker <;>
      simp [get_jdk_version, jdkVersionOf, h, hm]
  · intro h
    cases hm : (fs.jdks (toString m)).marker <;>
      simp [get_jdk_version, jdkVersionOf, h, hm]
  · intro rm hm hr hv
    simp [get_jdk_version, jdkVersionOf, hm, hr, hv]
  · intro rm v hm hr hv
    simp [get_jdk_version, jdkVersionOf, hm, hr, hv]

/-- Witness for C5 at concrete directory states, including a marked
directory whose parsed release map lacks the JAVA_VERSION key and the
release map with JAVA_VERSION 17.0.2 among other keys. -/
theorem C5_release_inspector_witness :
    get_jdk_version fsC5 10 = none ∧ get_jdk_version fsC5 11 = none
    ∧ get_jdk_version fsC5 12 = none ∧ get_jdk_version fsC5 13 = none
    ∧ get_jdk_version fsC5 14 = none
    ∧ get_jdk_version fsC5 17 = some "17.0.2" :=
  ⟨(C5_release_inspector fsC5 10).1 rfl,
   (C5_release_inspector fsC5 11).2.1 rfl,
   (C5_release_inspector fsC5 12).2.2.1 rfl,
   (C5_release_inspector fsC5 13).2.2.2.1 rfl,
   (C5_release_inspector fsC5 14).2.2.2.2.1 _ rfl rfl rfl,
   (C5_release_inspector fsC5 17).2.2.2.2.2 _ "17.0.2" rfl rfl rfl⟩

/-- Claim C6: enumeration of the cache root drops entries whose name does
not parse as u8 (the result is exactly the parseable names, in order), a
missing cache root yields an empty result rather than an error, and any
other read_dir failure surfaces as an error to the caller. -/
theorem C6_enumeration_errors :
    (∀ (names : List String) (jd : String → JdkState),
      get_all_jdk_majors ⟨.ok (names.map Except.ok), jd⟩
        = .ok (names.filterMap parseU8))
    ∧ (∀ jd : String → JdkState, get_all_jdk_majors ⟨.notFound, jd⟩ = .ok [])
    ∧ (∀ (e : Err) (jd : String → JdkState),
        get_all_jdk_majors ⟨.err e, jd⟩ = .error e) :=
  ⟨gajm_allOk, fun _ => rfl, fun _ _ => rfl⟩

theorem replaceSlash_inj (a b : Char) (ha : a ≠ '-') (hb : b ≠ '-')
    (h : replaceSlash a = replaceSlash b) : a = b := by
  unfold replaceSlash at h
  by_cases h1 : a = '/' <;> by_cases h2 : b = '/'
  · rw [h1, h2]
  · rw [if_pos h1, if_neg h2] at h
    exact absurd h.symm hb
  · rw [if_neg h1, if_pos h2] at h
    exact absurd h ha
  · rwa [if_neg h1, if_neg h2] at h

theorem map_replaceSlash_inj :
    ∀ l1 l2 : List Char, ('-' : Char) ∉ l1 → ('-' : Char) ∉ l2 →
      l1.map replaceSlash = l2.map replaceSlash → l1 = l2 := by
  intro l1
  induction l1 with
  | nil =>
    intro l2 _ _ h
    cases l2 with
    | nil => rfl
    | cons b t2 => simp at h
  | cons a t ih =>
    intro l2 h1 h2 h
    cases l2 with
    | nil => simp at h
    | cons b t2 =>
      simp only [List.map_cons, List.cons.injEq] at h
      have ha : a ≠ '-' := fun hc => h1 (hc ▸ List.mem_cons_self a t)
      have hb : b ≠ '-' := fun hc => h2 (hc ▸ List.mem_cons_self b t2)
      have hhead := replaceSlash_inj a b ha hb h.1
      have htail := ih t2 (fun hc => h1 (List.mem_cons_of_mem a hc))
        (fun hc => h2 (List.mem_cons_of_mem b hc)) h.2
      rw [hhead, htail]

/-- Counterexample for claim C9: the slash-to-dash sanitization is not
collision-free on all device paths; the distinct paths /dev/pts/0 and
/dev/pts-0 map to the same link filename. -/
theorem C9_sanitize_collision :
    ("/dev/pts/0" : String) ≠ "/dev/pts-0"
    ∧ sanitize "/dev/pts/0" = sanitize "/dev/pts-0" := by
  exact ⟨by decide, rfl⟩

/-- Claim C9 as amended: the sanitization is deterministic (it is a
function) and collision-free on device paths that contain no dash
character: two such paths with the same sanitized filename are equal. -/
theorem C9_sanitize_injective (s t : String)
    (hs : ('-' : Char) ∉ s.data) (ht : ('-' : Char) ∉ t.data)
    (h : sanitize s = sanitize t) : s = t := by
  have hdata : s.data.map replaceSlash = t.data.map replaceSlash := by
    have := congrArg String.data h
    simpa [sanitize] using this
  have hd := map_replaceSlash_inj s.data t.data hs ht hdata
  cases s
  cases t
  exact congrArg String.mk hd

/-- Witness for C9: the hypotheses hold at a concrete dash-free device
path. -/
theorem C9_sanitize_injective_witness : ("/dev/tty1" : String) = "/dev/tty1" :=
  C9_sanitize_injective "/dev/tty1" "/dev/tty1" (by decide) (by decide) rfl

theorem mem_insertByKey (a x : Nat × String) (l : List (Nat × String)) :
    a ∈ insertByKey x l ↔ a = x ∨ a ∈ l := by
  induction l with
  | nil => simp [insertByKey]
  | cons y ys ih =>
    simp only [insertByKey]
    split
    · simp only [List.mem_cons, ih]
      tauto
    · simp only [List.mem_cons]

theorem mem_insSortByKey (a : Nat × String) (l : List (Nat × String)) :
    a ∈ insSortByKey l ↔ a ∈ l := by
  induction l with
  | nil => simp [insSortByKey]
  | cons x xs ih => simp [insSortByKey, mem_insertByKey, ih]

/-- Counterexample for claim C1: a cache root holding the single
directory 17 with contents but no completion marker; the enumeration
get_all_jdk_majors still reports major 17, so bare enumeration does not
honour the marker invariant. -/
theorem C1_enumeration_ignores_marker :
    (fsC1.jdks "17").marker = false
    ∧ get_jdk_version fsC1 17 = none
    ∧ get_all_jdk_majors fsC1 = .ok [17] :=
  ⟨rfl, rfl, rfl⟩

/-- Claim C1 as amended: the marker invariant holds for the Release
Inspector and for the paired-version listing: a directory without the
marker reports no version and never appears in
map_available_jdk_versions, and a marked directory whose release map
yields a version is listed with it; bare enumeration
(get_all_jdk_majors), however, lists every entry whose name parses as u8
regardless of the marker. -/
theorem C1_marker_invariant_paired (fs : CacheFS) (majors : List Nat) (m : Nat) :
    ((fs.jdks (toString m)).marker = false →
      get_jdk_version fs m = none
      ∧ ∀ v, (m, v) ∉ map_available_jdk_versions fs majors)
    ∧ (∀ rm v, (fs.jdks (toString m)).marker = true →
        (fs.jdks (toString m)).release = .parsed rm →
        releaseLookup rm = some v → m ∈ majors →
        (m, v) ∈ map_available_jdk_versions fs majors) := by
  constructor
  · intro h
    have hv : get_jdk_version fs m = none := by
      simp [get_jdk_version, jdkVersionOf, h]
    refine ⟨hv, ?_⟩
    intro v hmem
    rw [map_available_jdk_versions, mem_insSortByKey, List.mem_filterMap] at hmem
    obtain ⟨a, _, ha⟩ := hmem
    rw [Option.map_eq_some'] at ha
    obtain ⟨w, hw, hpair⟩ := ha
    have ham : a = m := congrArg Prod.fst hpair
    rw [ham, hv] at hw
    exact Option.noConfusion hw
  · intro rm v hm hr hv hmem
    rw [map_available_jdk_versions, mem_insSortByKey, List.mem_filterMap]
    refine ⟨m, hmem, ?_⟩
    have : get_jdk_version fs m = some v := by
      simp [get_jdk_version, jdkVersionOf, hm, hr, hv]
    rw [this]
    rfl

/-- Witness for C1 as amended: the markerless 17 is absent from the
paired listing of a root containing both it and the installed 21, and 21
appears with its version. -/
theorem C1_marker_invariant_paired_witness :
    (get_jdk_version fsC1w 17 = none
      ∧ ∀ v, (17, v) ∉ map_available_jdk_versions fsC1w [17, 21])
    ∧ (21, "21.0.3") ∈ map_available_jdk_versions fsC1w [17, 21] :=
  ⟨(C1_marker_invariant_paired fsC1w [17, 21] 17).1 rfl,
   (C1_marker_invariant_paired fsC1w [17, 21] 21).2 _ "21.0.3" rfl rfl rfl
     (by decide)⟩

theorem count_parse (names : List String) (m : Nat) :
    (names.filterMap parseU8).count m
      = names.countP (fun n => parseU8 n == some m) := by
  induction names with
  | nil => rfl
  | cons h t ih =>
    rw [List.filterMap_cons, List.countP_cons]
    cases hp : parseU8 h with
    | none => simp [hp, ih]
    | some v => simp [hp, ih, List.count_cons]

/-- Counterexample for claim C8: the enumeration does not behave as a
set; the distinct names 17 and 017 both parse to 17 (Rust u8 parsing
accepts leading zeros) and the result lists 17 twice. -/
theorem C8_duplicate_majors :
    get_all_jdk_majors fsC8 = .ok [17, 17]
    ∧ parseU8 "017" = some 17 ∧ parseU8 "17" = some 17
    ∧ ¬ (17 :: 17 :: ([] : List Nat)).Nodup :=
  ⟨rfl, rfl, rfl, by decide⟩

/-- Claim C8 as amended: get_all_jdk_majors is a multiset projection of
the directory listing, not a set: its result is exactly the names that
parse as u8 in directory order, and each major occurs as many times as
there are entry names parsing to it, so distinct names parsing to the
same value produce duplicates. -/
theorem C8_enumeration_multiset (names : List String) (jd : String → JdkState)
    (m : Nat) :
    get_all_jdk_majors ⟨.ok (names.map Except.ok), jd⟩
      = .ok (names.filterMap parseU8)
    ∧ (names.filterMap parseU8).count m
      = names.countP (fun n => parseU8 n == some m) :=
  ⟨gajm_allOk names jd, count_parse names m⟩

theorem finish_extract_ok_dir (url : String) (x : ExtractOutcome) (ops : FsOps)
    (mac : Bool) (dir0 : JdkState) (tmp : List String) :
    (finish_extract url x ops mac dir0 tmp).result = .ok () →
    (finish_extract url x ops mac dir0 tmp).dir = ⟨true, true, x.release⟩ := by
  simp only [finish_extract]
  split
  · split
    · split
      · split
        · intro _
          rfl
        · intro h
          exact Except.noConfusion h
      · intro h
        exact Except.noConfusion h
    · intro h
      exact Except.noConfusion h
  · intro h
    exact Except.noConfusion h

theorem finalize_ok (fr : FinishResult) (ops : FsOps) :
    (finalize fr ops).result = .ok () →
    (finalize fr ops).dir = fr.dir ∧ fr.result = .ok () := by
  unfold finalize
  split
  · intro h
    exact Except.noConfusion h
  · rename_i heq
    split
    · intro h
      exact Except.noConfusion h
    · intro _
      exact ⟨rfl, heq⟩

theorem update_jdk_fetched_ok_marker (resp : NetResponse) (ops : FsOps)
    (mac : Bool) (dir0 : JdkState) :
    (update_jdk_fetched resp ops mac dir0).result = .ok () →
    (update_jdk_fetched resp ops mac dir0).dir.marker = true := by
  unfold update_jdk_fetched
  split
  · split
    · intro h
      exact Except.noConfusion h
    · intro h
      exact Except.noConfusion h
    · split
      · intro h
        exact Except.noConfusion h
      · split
        · split
          · intro h
            obtain ⟨hd, hr⟩ := finalize_ok _ _ h
            rw [hd, finish_extract_ok_dir _ _ _ _ _ _ hr]
          · intro h
            exact Except.noConfusion h
        · intro h
          exact Except.noConfusion h
  · intro h
    exact Except.noConfusion h

theorem update_jdk_ok_marker (net : Except Err NetResponse) (ops : FsOps)
    (mac : Bool) (dir0 : JdkState) :
    (update_jdk net ops mac dir0).result = .ok () →
    (update_jdk net ops mac dir0).dir.marker = true := by
  cases net with
  | error e =>
    intro h
    exact Except.noConfusion h
  | ok resp => exact update_jdk_fetched_ok_marker resp ops mac dir0

/-- Claim C3: when the completion marker of a major is present,
get_jdk_path returns the install path at once with the directory state
untouched, for every network and filesystem oracle (so no network access
happens); and after any successful call, a second call returns the same
path and state even when the network collaborator and every filesystem
operation would fail. -/
theorem C3_path_idempotent (net : Except Err NetResponse) (ops : FsOps)
    (mac : Bool) (major : Nat) (st : JdkState) :
    (st.marker = true →
      ∀ (net2 : Except Err NetResponse) (ops2 : FsOps) (mac2 : Bool),
        get_jdk_path net2 ops2 mac2 major st = (.ok (jdkPath major), st))
    ∧ (∀ p d, get_jdk_path net ops mac major st = (.ok p, d) →
        ∀ (net2 : Except Err NetResponse) (ops2 : FsOps) (mac2 : Bool),
          get_jdk_path net2 ops2 mac2 major d = (.ok p, d)) := by
  constructor
  · intro h net2 ops2 mac2
    simp [get_jdk_path, h]
  · intro p d hpd net2 ops2 mac2
    by_cases h : st.marker = true
    · simp only [get_jdk_path, if_pos h] at hpd
      have h1 : (Except.ok (jdkPath major) : Except Err (List String)) = .ok p :=
        congrArg Prod.fst hpd
      have h2 : st = d := congrArg Prod.snd hpd
      injection h1 with hp
      have hdm : d.marker = true := h2 ▸ h
      simp [get_jdk_path, hdm, hp, h2]
    · simp only [get_jdk_path, if_neg h] at hpd
      cases hu : (update_jdk net ops mac st).result with
      | error e =>
        rw [hu] at hpd
        exact Except.noConfusion (congrArg Prod.fst hpd)
      | ok u =>
        rw [hu] at hpd
        have h1 : (Except.ok (jdkPath major) : Except Err (List String)) = .ok p :=
          congrArg Prod.fst hpd
        have h2 : (update_jdk net ops mac st).dir = d := congrArg Prod.snd hpd
        injection h1 with hp
        have hdm : d.marker = true := h2 ▸ update_jdk_ok_marker net ops mac st hu
        simp [get_jdk_path, hdm, hp, h2]

/-- Witness for C3: with the marker present the path is returned even
when the network is down and every filesystem operation fails; and after
one successful install from an empty cache the second call with a failing
network returns the same path. -/
theorem C3_path_idempotent_witness :
    get_jdk_path netDown opsNone false 17 stInstalled
      = (.ok (jdkPath 17), stInstalled)
    ∧ get_jdk_path netDown opsNone true 17 dirAfterInstall
      = (.ok (jdkPath 17), dirAfterInstall) :=
  ⟨(C3_path_idempotent netDown opsNone false 17 stInstalled).1 rfl
      netDown opsNone false,
   (C3_path_idempotent (.ok respGood) opsAll false 17 absentJdk).2
      (jdkPath 17) dirAfterInstall rfl netDown opsNone true⟩

/-- Claim C2 evaluated at the failing input: a corrupt archive stream
fails only on the detached worker thread and cannot abort finish_extract,
whose error channel carries no extraction outcome; the rename of the
partially extracted staging tree and the marker creation still happen,
finish_extract returns ok, and the whole update_jdk reports success with
the marker present -- a partial install marked complete, against the
claimed failure semantics. -/
theorem C2_marker_despite_failed_extraction :
    extractFail.ok = false
    ∧ (finish_extract urlTarGz extractFail opsAll false ⟨true, false, .missing⟩
        tmpStagingPath).result = .ok ()
    ∧ (finish_extract urlTarGz extractFail opsAll false ⟨true, false, .missing⟩
        tmpStagingPath).dir.marker = true
    ∧ (finish_extract urlTarGz extractFail opsAll false ⟨true, false, .missing⟩
        tmpStagingPath).events = [.rename, .marker]
    ∧ (update_jdk (.ok respCorrupt) opsAll false absentJdk).result = .ok ()
    ∧ (update_jdk (.ok respCorrupt) opsAll false absentJdk).dir.marker = true :=
  ⟨rfl, rfl, rfl, rfl, rfl, rfl⟩

/-- Claim C4: normalization of the staged tree: with exactly one
non-hidden top-level entry that entry is selected as the rename source
(its Contents/Home subdirectory on the macOS code path); with zero or
more than one non-hidden entry the staging directory itself is selected;
and on the successful path finish_extract renames exactly this selection
into the install root. -/
theorem C4_normalization (tmp : List String) (entries : List String) (mac : Bool) :
    (∀ e, visibleEntries entries = [e] →
      fromDirSelect tmp entries mac
        = if mac then tmp ++ [e, "Contents", "Home"] else tmp ++ [e])
    ∧ ((visibleEntries entries).length ≠ 1 → fromDirSelect tmp entries mac = tmp)
    ∧ (∀ (url : String) (x : ExtractOutcome) (ops : FsOps) (dir0 : JdkState),
        strEndsWith url ".tar.gz" = true → ops.readTempOk = true →
        ops.renameOk = true → x.entries = entries →
        (finish_extract url x ops mac dir0 tmp).renamedFrom
          = some (fromDirSelect tmp entries mac)) := by
  refine ⟨?_, ?_, ?_⟩
  · intro e he
    simp [fromDirSelect, he]
  · intro h
    cases hv : visibleEntries entries with
    | nil => simp [fromDirSelect, hv]
    | cons a t =>
      cases t with
      | nil =>
        rw [hv] at h
        exact absurd rfl h
      | cons b t2 => simp [fromDirSelect, hv]
  · intro url x ops dir0 hurl hread hrename hx
    simp only [finish_extract, unarchive_tar_gz, hurl, hread, hrename, hx,
      if_true]
    by_cases hmk : ops.markerOk <;> simp [hmk]

/-- Witness for C4 at concrete staging listings: one visible entry beside
a hidden one (on both platform paths), two entries, zero entries, and the
successful finish_extract path renaming the selected entry. -/
theorem C4_normalization_witness :
    fromDirSelect tmpStagingPath ["jdk-17.0.2+8", ".DS_Store"] false
      = tmpStagingPath ++ ["jdk-17.0.2+8"]
    ∧ fromDirSelect tmpStagingPath ["jdk-17.0.2+8", ".DS_Store"] true
      = tmpStagingPath ++ ["jdk-17.0.2+8", "Contents", "Home"]
    ∧ fromDirSelect tmpStagingPath ["a", "b"] false = tmpStagingPath
    ∧ fromDirSelect tmpStagingPath [] false = tmpStagingPath
    ∧ (finish_extract urlTarGz extractGood opsAll false ⟨true, false, .missing⟩
        tmpStagingPath).renamedFrom
      = some (fromDirSelect tmpStagingPath ["jdk-17.0.2+8"] false) :=
  ⟨(C4_normalization tmpStagingPath ["jdk-17.0.2+8", ".DS_Store"] false).1
      "jdk-17.0.2+8" rfl,
   (C4_normalization tmpStagingPath ["jdk-17.0.2+8", ".DS_Store"] true).1
      "jdk-17.0.2+8" rfl,
   (C4_normalization tmpStagingPath ["a", "b"] false).2.1 (by decide),
   (C4_normalization tmpStagingPath [] false).2.1 (by decide),
   (C4_normalization tmpStagingPath ["jdk-17.0.2+8"] false).2.2
      urlTarGz extractGood opsAll ⟨true, false, .missing⟩ rfl rfl rfl rfl⟩

/-- Counterexample for claim C7: in a non-interactive session,
symlink_jdk_path resolves the JDK path before the session-identity check;
when that resolution fails (network down, nothing installed) the
operation fails with the JDK-path error, whose root cause is not the
not-a-TTY error. -/
theorem C7_non_tty_error_mismatch :
    symlink_jdk_path netDown opsNone false 17 absentJdk ttyNone true false true true
      = .error (.ctx "Failed to get JDK path" (.msg "network down"))
    ∧ rootCause (Err.ctx "Failed to get JDK path" (.msg "network down"))
        ≠ .notATTY :=
  ⟨rfl, by decide⟩

/-- Claim C7 as amended: when the error stream is not an interactive
terminal, get_symlink_location and get_current_jdk fail with the
not-a-TTY error; symlink_jdk_path also always fails -- with the
not-a-TTY root cause whenever its JDK-path resolution succeeds -- but it
resolves (and may install) the JDK first and surfaces that error instead
when the resolution fails; no operation falls back to a shared session
identity. -/
theorem C7_not_a_tty (t : Tty) (mkdirOk : Bool) (h : t.attended = false) :
    get_symlink_location t mkdirOk = .error .notATTY
    ∧ (∀ link fs, get_current_jdk t mkdirOk link fs = .error .notATTY)
    ∧ (∀ net ops mac major st linkThere rmOk slOk,
        ∃ e, symlink_jdk_path net ops mac major st t mkdirOk linkThere rmOk slOk
            = .error e
          ∧ ∀ p d, get_jdk_path net ops mac major st = (.ok p, d) →
              rootCause e = .notATTY) := by
  have hg : get_symlink_location t mkdirOk = .error .notATTY := by
    simp [get_symlink_location, h]
  refine ⟨hg, ?_, ?_⟩
  · intro link fs
    simp [get_current_jdk, hg]
  · intro net ops mac major st linkThere rmOk slOk
    cases hp : (get_jdk_path net ops mac major st).1 with
    | error e =>
      refine ⟨.ctx "Failed to get JDK path" e, ?_, ?_⟩
      · simp [symlink_jdk_path, hp]
      · intro p d hpd
        rw [hpd] at hp
        exact Except.noConfusion hp
    | ok pth =>
      exact ⟨.ctx "Failed to get symlink location" .notATTY,
        by simp [symlink_jdk_path, hp, hg], fun _ _ _ => rfl⟩

/-- Witness for C7 as amended at a concrete non-attended terminal, with
an installed JDK so that the path resolution of symlink_jdk_path
succeeds and the not-a-TTY root cause surfaces. -/
theorem C7_not_a_tty_witness :
    get_symlink_location ttyNone true = .error .notATTY
    ∧ get_current_jdk ttyNone true (some (jdkPath 17)) fsC10 = .error .notATTY
    ∧ ∃ e, symlink_jdk_path netDown opsNone false 17 stInstalled ttyNone true
          false true true = .error e
        ∧ rootCause e = .notATTY := by
  obtain ⟨h1, h2, h3⟩ := C7_not_a_tty ttyNone true rfl
  obtain ⟨e, he, hcause⟩ := h3 netDown opsNone false 17 stInstalled false true true
  exact ⟨h1, h2 (some (jdkPath 17)) fsC10, e, he,
    hcause (jdkPath 17) stInstalled rfl⟩

/-- Claim C10: majors are u8 at the interface: the name 256 does not
parse (255 does), so enumeration of a root listing 17 and 256 yields only
17 even though the 256 directory is itself a valid install; and
get_current_jdk collapses a link target whose final component is 256 to
the Not linked error although that target is a valid install directory. -/
theorem C10_u8_boundary :
    parseU8 "256" = none
    ∧ parseU8 "255" = some 255
    ∧ get_all_jdk_majors fsC10 = .ok [17]
    ∧ jdkVersionOf (fsC10.jdks "256") = some "20.0.1"
    ∧ get_current_jdk ttyOk true (some (basePath ++ ["256"])) fsC10
        = .error (.msg "Not linked to an actual JDK") :=
  ⟨rfl, rfl, rfl, rfl, rfl⟩

end Jpre
